import Mathlib

/-!
Shallow embedding of `src/collector/trmnl_collector.py` (TRMNL Servarr
collector).  Pure transformation logic is translated into executable Lean
definitions; the HTTP layer is modelled by an `Outcome` value describing what
one GET against the upstream API did.  Python numbers are modelled exactly:
byte counts and sizes as integers, with the float divisions of the source
(`(size - sizeleft) / size * 100`, `size /= 1024`) modelled by exact rational
arithmetic expressed over ℤ/ℕ (numerator/denominator form), and Python's
`int()` truncation modelled by `Int.tdiv`.  Python strings are modelled by
Lean `String`, with character-level helpers (`pyLower`, `splitOnChar`, ...)
standing in for the corresponding `str` methods so that everything reduces in
the kernel.
-/

namespace Servarr

/-- Errors raised by the collector: the two exception classes of the source
(`ServarrConnectionError`, `ServarrAuthenticationError`), the `requests`
HTTPError that escapes `_api_request` untouched in raising mode, and the
`ValueError` of `detect_app_type`. -/
inductive ServarrError where
  | connectionError (msg : String)
  | authenticationError (msg : String)
  | requestError (msg : String)
  | valueError (msg : String)
deriving DecidableEq, Repr

/-- Outcome of one HTTP GET against the upstream API: the decoded JSON body on
success, or the `requests` exception class the call raised (connection
failure, timeout, HTTP error with a status code, or any other request
exception). -/
inductive Outcome (α : Type) where
  | ok (body : α)
  | connError
  | timeout
  | httpError (status : Nat)
  | reqError
deriving DecidableEq, Repr

/-- True when the outcome is any failure (not a 2xx success). -/
def Outcome.isFailure {α : Type} : Outcome α → Bool
  | .ok _ => false
  | _ => true

/-- Embeds `ServarrCollector._api_request`: on success return the JSON body;
on failure either raise the classified error (`raise_on_error=True`) or
swallow it and return the empty result (Python `{}`, here the `emptyVal` of
the body type).  HTTP 401/403 classify as authentication failure; other HTTP
errors re-raise the original `HTTPError` in raising mode; connection errors,
timeouts and all other request exceptions classify as connection errors in
raising mode. -/
def apiRequest {α : Type} (raiseOnError : Bool) (emptyVal : α) (url : String)
    (o : Outcome α) : Except ServarrError α :=
  match o with
  | .ok body => .ok body
  | .connError =>
      if raiseOnError then .error (.connectionError ("Cannot connect to " ++ url)) else .ok emptyVal
  | .timeout =>
      if raiseOnError then
        .error (.connectionError ("Cannot connect to " ++ url ++ ": Request timed out"))
      else .ok emptyVal
  | .httpError status =>
      if status = 401 ∨ status = 403 then
        if raiseOnError then
          .error (.authenticationError ("Authentication failed for " ++ url ++
            ": Invalid API key (HTTP " ++ toString status ++ ")"))
        else .ok emptyVal
      else
        if raiseOnError then .error (.requestError "API request failed") else .ok emptyVal
  | .reqError =>
      if raiseOnError then .error (.connectionError ("Cannot connect to " ++ url)) else .ok emptyVal

/-- Non-raising request as the data fetchers use it: the `.error` branch is
unreachable (theorem `api_request_nonraising_total`), so the empty result is
returned there as well. -/
def nonRaising {α : Type} (emptyVal : α) (url : String) (o : Outcome α) : α :=
  match apiRequest false emptyVal url o with
  | .ok a => a
  | .error _ => emptyVal

/-- Embeds Python `str.lower()` (character-wise lowercasing; upstream app
names are ASCII). -/
def pyLower (s : String) : String :=
  ⟨s.data.map Char.toLower⟩

/-- Python truthiness of an optional string: `None` and `''` are falsy. -/
def strTruthy : Option String → Bool
  | none => false
  | some s => !(s == "")

/-- Python `a or b` on optional strings: `b` when `a` is `None` or empty. -/
def pyOr (a b : Option String) : Option String :=
  if strTruthy a then a else b

/-- Embeds `str.split(sep)` for a single-character separator (the source only
splits on `'T'`, `'-'`, `':'`, `'+'`). -/
def splitOnChar (c : Char) (s : String) : List String :=
  (s.data.foldr
    (fun ch acc =>
      if ch = c then [] :: acc
      else
        match acc with
        | h :: t => (ch :: h) :: t
        | [] => [[ch]])
    ([[]] : List (List Char))).map fun l => ⟨l⟩

/-- Embeds `date_str.replace('Z', '+00:00')` from `_calc_relative_time`. -/
def replaceZ (s : String) : String :=
  ⟨s.data.flatMap fun ch => if ch = 'Z' then "+00:00".data else [ch]⟩

/-- Digits-only string to number, with a length window; models the fixed-width
numeric fields accepted by `strptime`/`fromisoformat`. -/
def parseDigits (lo hi : Nat) (s : String) : Option Nat :=
  if lo ≤ s.data.length ∧ s.data.length ≤ hi ∧ s.data ≠ [] ∧ s.data.all Char.isDigit then
    some (s.data.foldl (fun n c => n * 10 + (c.toNat - 48)) 0)
  else none

/-- Body of `/system/status`: only the `appName` key is read. -/
structure SystemStatus where
  appName : Option String := none
deriving DecidableEq, Repr

/-- Embeds `ServarrCollector.detect_app_type`.  `cfgType` is `self.app_type`
(empty string for unset, matching Python truthiness); `v3` and `v1` are the
outcomes of the two `/system/status` probes.  A forced type short-circuits;
otherwise v3 is probed first, falling back to v1 on connection or
authentication failure exactly as the `try`/`except` chain does. -/
def detectAppType (cfgType : String) (url : String) (v3 v1 : Outcome SystemStatus) :
    Except ServarrError String :=
  if cfgType ≠ "" then .ok (pyLower cfgType)
  else
    let finish : SystemStatus → Except ServarrError String := fun status =>
      let appName := pyLower (status.appName.getD "")
      if appName = "" then
        .error (.valueError ("Connected to " ++ url ++ " but could not detect app type."))
      else .ok appName
    match apiRequest true {} url v3 with
    | .ok status => finish status
    | .error (.connectionError _) =>
        match apiRequest true {} url v1 with
        | .ok status => finish status
        | .error (.connectionError _) =>
            .error (.connectionError
              ("Cannot connect to " ++ url ++ ": Check URL and ensure service is running"))
        | .error e => .error e
    | .error (.authenticationError _) =>
        match apiRequest true {} url v1 with
        | .ok status => finish status
        | .error (.connectionError _) =>
            .error (.authenticationError ("Authentication failed for " ++ url ++ ": Check API key"))
        | .error (.authenticationError _) =>
            .error (.authenticationError ("Authentication failed for " ++ url ++ ": Check API key"))
        | .error e => .error e
    | .error e => .error e

/-- Embeds `ServarrCollector._get_api_version`. -/
def getApiVersion (appType : String) : String :=
  if appType = "sonarr" ∨ appType = "radarr" then "v3" else "v1"

/-- Related entities eagerly loaded into queue/calendar/history records. -/
structure Series where
  title : Option String := none
  network : Option String := none
deriving DecidableEq, Repr

/-- Episode sub-record (sonarr queue/history records). -/
structure Episode where
  seasonNumber : Option Nat := none
  episodeNumber : Option Nat := none
deriving DecidableEq, Repr

/-- Movie sub-record (radarr). -/
structure Movie where
  title : Option String := none
  year : Option Nat := none
deriving DecidableEq, Repr

/-- Artist sub-record (lidarr). -/
structure Artist where
  artistName : Option String := none
deriving DecidableEq, Repr

/-- Album sub-record (lidarr). -/
structure Album where
  title : Option String := none
deriving DecidableEq, Repr

/-- Author sub-record (readarr). -/
structure Author where
  authorName : Option String := none
deriving DecidableEq, Repr

/-- Book sub-record (readarr). -/
structure Book where
  title : Option String := none
deriving DecidableEq, Repr

/-- Embeds `str(n).zfill(2)` on the (non-negative) season/episode numbers. -/
def zfill2 (n : Nat) : String :=
  let s := toString n
  if s.data.length < 2 then "0" ++ s else s

/-- One upstream queue record, with the keys `_format_queue_item` reads.
`quality.quality.name` is flattened to `qualityName`.  `size`/`sizeleft` are
byte counts (JSON numbers, integral in practice). -/
structure QueueRecord where
  series : Option Series := none
  episode : Option Episode := none
  movie : Option Movie := none
  artist : Option Artist := none
  album : Option Album := none
  author : Option Author := none
  book : Option Book := none
  title : Option String := none
  size : Option Int := none
  sizeleft : Option Int := none
  qualityName : Option String := none
  status : Option String := none
  timeleft : Option String := none
deriving DecidableEq, Repr

/-- The title composition branch of `_format_queue_item`. -/
def queueTitle (record : QueueRecord) (appType : String) : String :=
  if appType = "sonarr" ∧ record.series.isSome then
    let series := record.series.getD {}
    let episode := record.episode.getD {}
    series.title.getD "Unknown" ++ " [S" ++ zfill2 (episode.seasonNumber.getD 0) ++
      "E" ++ zfill2 (episode.episodeNumber.getD 0) ++ "]"
  else if appType = "radarr" ∧ record.movie.isSome then
    let movie := record.movie.getD {}
    movie.title.getD "Unknown" ++ " (" ++
      (match movie.year with | some y => toString y | none => "") ++ ")"
  else if appType = "lidarr" ∧ record.artist.isSome then
    let artist := record.artist.getD {}
    let album := record.album.getD {}
    artist.artistName.getD "Unknown" ++ " - " ++ album.title.getD "Unknown Album"
  else if appType = "readarr" ∧ record.author.isSome then
    let author := record.author.getD {}
    let book := record.book.getD {}
    author.authorName.getD "Unknown" ++ " - " ++ book.title.getD "Unknown Book"
  else
    record.title.getD "Unknown"

/-- One formatted queue item (output shape of `_format_queue_item`). -/
structure QueueItem where
  title : String
  quality : String
  status : String
  progress : Int
  eta : String
deriving DecidableEq, Repr

/-- Embeds `ServarrCollector._format_queue_item`.  Python computes
`int((size - sizeleft) / size * 100)` in float arithmetic on the exact value
`(size - sizeleft) * 100 / size`; `int()` truncates toward zero, which is
`Int.tdiv` on the exact numerator/denominator. -/
def formatQueueItem (record : QueueRecord) (appType : String) : QueueItem :=
  let size := record.size.getD 0
  let sizeleft := record.sizeleft.getD 0
  let progress := if 0 < size then Int.tdiv ((size - sizeleft) * 100) size else 0
  { title := queueTitle record appType
    quality := record.qualityName.getD "Unknown"
    status := record.status.getD "unknown"
    progress := progress
    eta := record.timeleft.getD "pending" }

/-- Body of a paged `/queue` response: the keys `fetch_queue` reads. -/
structure QueueResponse where
  totalRecords : Option Nat := none
  records : List QueueRecord := []
deriving DecidableEq, Repr

/-- A `{count, items}` section of the payload. -/
structure SectionData (α : Type) where
  count : Nat
  items : List α
deriving DecidableEq, Repr

/-- The kind-specific eager-include query parameters shared by `fetch_queue`
and `fetch_recently_added`. -/
def includeParams (appType : String) : String :=
  if appType = "sonarr" then "&includeSeries=true&includeEpisode=true"
  else if appType = "radarr" then "&includeMovie=true"
  else if appType = "lidarr" then "&includeArtist=true&includeAlbum=true"
  else if appType = "readarr" then "&includeAuthor=true&includeBook=true"
  else ""

/-- The queue endpoint requested by `fetch_queue` (page size 20). -/
def queueEndpoint (apiVersion appType : String) : String :=
  "/api/" ++ apiVersion ++ "/queue?pageSize=20&includeUnknownSeriesItems=false" ++
    includeParams appType

/-- Embeds `ServarrCollector.fetch_queue`: non-raising request, empty section
on an empty body, count from `totalRecords` with fallback to the number of
records in the page, display truncation to the first 10 records.  The body is
`none` for the empty dict `{}` (the non-raising failure result). -/
def fetchQueue (apiVersion appType : String) (o : Outcome (Option QueueResponse)) :
    SectionData QueueItem :=
  match nonRaising none (queueEndpoint apiVersion appType) o with
  | none => ⟨0, []⟩
  | some data =>
      let count := data.totalRecords.getD data.records.length
      ⟨count, (data.records.take 10).map fun r => formatQueueItem r appType⟩

/-- A proleptic-Gregorian calendar date.  Python's `datetime` restricts years
to `1..9999`; the parsers below enforce that, so `year : Nat`. -/
structure CivilDate where
  year : Nat
  month : Nat
  day : Nat
deriving DecidableEq, Repr

/-- Gregorian leap-year rule (as used by `datetime.date`). -/
def isLeapYear (y : Nat) : Bool :=
  y % 4 = 0 && (y % 100 ≠ 0 || y % 400 = 0)

/-- Days in a month, for the range validation `strptime` performs. -/
def daysInMonth (y m : Nat) : Nat :=
  if m = 2 then (if isLeapYear y then 29 else 28)
  else if m = 4 ∨ m = 6 ∨ m = 9 ∨ m = 11 then 30
  else 31

/-- Day number of a civil date (days since 1970-01-01, negative before); this
is the standard civil-from-days correspondence that `datetime.date`
subtraction computes.  Internally all-ℕ since `1 ≤ year`. -/
def daysFromCivil (date : CivilDate) : Int :=
  let y : Nat := if date.month ≤ 2 then date.year - 1 else date.year
  let era := y / 400
  let yoe := y % 400
  let mp := (date.month + 9) % 12
  let doy := (153 * mp + 2) / 5 + date.day - 1
  let doe := yoe * 365 + yoe / 4 - yoe / 100 + doy
  (((era * 146097 + doe : Nat) : Int)) - 719468

/-- The day field of `strptime`'s `%d` directive: CPython's pattern accepts
one or two digits, or a space followed by a single nonzero digit; values the
pattern excludes (like 32..39 or 00) are equally rejected here by `parseYMD`'s
range check, matching the ValueError either path raises. -/
def parseDay (s : String) : Option Nat :=
  match s.data with
  | [' ', c] => if c.isDigit ∧ c ≠ '0' then some (c.toNat - 48) else none
  | _ => parseDigits 1 2 s

/-- Embeds `datetime.strptime(s, '%Y-%m-%d')`: CPython's `%Y` matches exactly
four digits, `%m` one or two digits, `%d` as in `parseDay`; then `datetime`'s
range checks apply (year 1..9999, month 1..12, day within the month). -/
def parseYMD (s : String) : Option CivilDate :=
  match splitOnChar '-' s with
  | [ys, ms, ds] =>
      match parseDigits 4 4 ys, parseDigits 1 2 ms, parseDay ds with
      | some y, some m, some d =>
          if 1 ≤ y ∧ 1 ≤ m ∧ m ≤ 12 ∧ 1 ≤ d ∧ d ≤ daysInMonth y m then some ⟨y, m, d⟩
          else none
      | _, _, _ => none
  | _ => none

/-- A naive `datetime` value: the date plus a time-of-day (in seconds). Only
`.date()` is consumed by the calendar formatter. -/
structure PyDateTime where
  date : CivilDate
  secondsOfDay : Nat := 0
deriving DecidableEq, Repr

/-- One upstream calendar record, with the keys `_format_calendar_item`
reads. -/
structure CalendarRecord where
  series : Option Series := none
  seasonNumber : Option Nat := none
  episodeNumber : Option Nat := none
  title : Option String := none
  year : Option Nat := none
  airDateUtc : Option String := none
  airDate : Option String := none
  digitalRelease : Option String := none
  physicalRelease : Option String := none
  inCinemas : Option String := none
  releaseDate : Option String := none
  artist : Option Artist := none
  author : Option Author := none
deriving DecidableEq, Repr

/-- The per-kind date-field priority chain of `_format_calendar_item`
(`or`-chains with Python truthiness). -/
def calendarSelectedDate (record : CalendarRecord) (appType : String) : Option String :=
  if appType = "sonarr" then pyOr record.airDateUtc record.airDate
  else if appType = "radarr" then
    pyOr (pyOr record.digitalRelease record.physicalRelease) record.inCinemas
  else if appType = "lidarr" then record.releaseDate
  else if appType = "readarr" then record.releaseDate
  else none

/-- The title composition branch of `_format_calendar_item` (note: unlike the
queue formatter, sonarr uses `record.get('series', {})` so a missing series
still yields a "[SxxEyy]" title rather than falling through). -/
def calendarTitle (record : CalendarRecord) (appType : String) : String :=
  if appType = "sonarr" then
    let series := record.series.getD {}
    series.title.getD "Unknown" ++ " [S" ++ zfill2 (record.seasonNumber.getD 0) ++
      "E" ++ zfill2 (record.episodeNumber.getD 0) ++ "]"
  else if appType = "radarr" then
    record.title.getD "Unknown" ++ " (" ++
      (match record.year with | some y => toString y | none => "") ++ ")"
  else if appType = "lidarr" then
    (record.artist.getD {}).artistName.getD "Unknown" ++ " - " ++ record.title.getD "Unknown"
  else if appType = "readarr" then
    (record.author.getD {}).authorName.getD "Unknown" ++ " - " ++ record.title.getD "Unknown"
  else "Unknown"

/-- One formatted calendar item (output shape of `_format_calendar_item`). -/
structure CalendarItem where
  title : String
  air_date : Option String
  air_date_time : Option String
  network : Option String
  days_until : Int
deriving DecidableEq, Repr

/-- Embeds `ServarrCollector._format_calendar_item`: select the kind-specific
date field, strip the time portion at `'T'`, parse `%Y-%m-%d`, and take the
whole-day difference of the date portions; any parse failure or missing field
yields `days_until = 0`. -/
def formatCalendarItem (record : CalendarRecord) (appType : String) (today : PyDateTime) :
    CalendarItem :=
  let title := calendarTitle record appType
  let network :=
    if appType = "sonarr" then (record.series.getD {}).network else none
  let adt := calendarSelectedDate record appType
  if strTruthy adt then
    let airDate := (splitOnChar 'T' (adt.getD "")).headD ""
    let daysUntil : Int :=
      match parseYMD airDate with
      | some d => daysFromCivil d - daysFromCivil today.date
      | none => 0
    { title := title, air_date := some airDate, air_date_time := adt,
      network := network, days_until := daysUntil }
  else
    { title := title, air_date := none, air_date_time := adt,
      network := network, days_until := 0 }

/-- Embeds `ServarrCollector.fetch_calendar`: non-raising request (the empty
dict `{}` of a failed request and an empty upstream list are both falsy, so
both are modelled by `[]`), full-list count, display truncation to 10. -/
def fetchCalendar (appType : String) (today : PyDateTime)
    (o : Outcome (List CalendarRecord)) : SectionData CalendarItem :=
  let data := nonRaising [] "/calendar" o
  if data.isEmpty then ⟨0, []⟩
  else ⟨data.length, (data.take 10).map fun r => formatCalendarItem r appType today⟩

/-- Fractional-second field of `fromisoformat`: exactly three or six digits
(the widths every supported CPython accepts), converted to microseconds. -/
def parseFracUs (f : String) : Option Nat :=
  match parseDigits 3 3 f with
  | some v => some (v * 1000)
  | none =>
      match parseDigits 6 6 f with
      | some v => some v
      | none => none

/-- Time-of-day `HH:MM[:SS[.fff|.ffffff]]` in two-digit fields with
`datetime` range checks, in microseconds; used both for the wall-clock part
and for validating a UTC offset. -/
def parseTimeOfDay (t : String) : Option Nat :=
  match splitOnChar ':' t with
  | [hs, ms] =>
      match parseDigits 2 2 hs, parseDigits 2 2 ms with
      | some h, some m =>
          if h < 24 ∧ m < 60 then some ((h * 3600 + m * 60) * 1000000) else none
      | _, _ => none
  | [hs, ms, ss] =>
      match parseDigits 2 2 hs, parseDigits 2 2 ms with
      | some h, some m =>
          match splitOnChar '.' ss with
          | [sec] =>
              match parseDigits 2 2 sec with
              | some v =>
                  if h < 24 ∧ m < 60 ∧ v < 60 then
                    some ((h * 3600 + m * 60 + v) * 1000000)
                  else none
              | none => none
          | [sec, frac] =>
              match parseDigits 2 2 sec, parseFracUs frac with
              | some v, some us =>
                  if h < 24 ∧ m < 60 ∧ v < 60 then
                    some ((h * 3600 + m * 60 + v) * 1000000 + us)
                  else none
              | _, _ => none
          | _ => none
      | _, _ => none
  | _ => none

/-- Splits the post-date part of an ISO string into wall-clock time and an
optional `±HH:MM` offset. -/
def splitOffsetParts (rest : String) : Option (String × Option String) :=
  match splitOnChar '+' rest with
  | [a] =>
      match splitOnChar '-' a with
      | [w] => some (w, none)
      | [w, off] => some (w, some off)
      | _ => none
  | [a, off] => some (a, some off)
  | _ => none

/-- Strict zero-padded `YYYY-MM-DD` as `datetime.fromisoformat` requires. -/
def parseIsoDate (s : String) : Option CivilDate :=
  match splitOnChar '-' s with
  | [ys, ms, ds] =>
      match parseDigits 4 4 ys, parseDigits 2 2 ms, parseDigits 2 2 ds with
      | some y, some m, some d =>
          if 1 ≤ y ∧ 1 ≤ m ∧ m ≤ 12 ∧ 1 ≤ d ∧ d ≤ daysInMonth y m then some ⟨y, m, d⟩
          else none
      | _, _, _ => none
  | _ => none

/-- Embeds the timestamp handling of `_calc_relative_time`:
`datetime.fromisoformat(date_str.replace('Z', '+00:00'))` followed by
`.replace(tzinfo=None)`, i.e. the wall-clock fields (including fractional
seconds) with the offset parsed for validity but discarded.  Result is
microseconds since 1970-01-01 of the naive wall-clock value. -/
def parseIsoNaive (raw : String) : Option Int :=
  let s := replaceZ raw
  let datePart : String := ⟨s.data.take 10⟩
  match parseIsoDate datePart with
  | none => none
  | some d =>
      match s.data.drop 10 with
      | [] => some (86400000000 * daysFromCivil d)
      | _ :: timeChars =>
          match splitOffsetParts ⟨timeChars⟩ with
          | none => none
          | some (wall, off) =>
              match parseTimeOfDay wall, off with
              | some t, none => some (86400000000 * daysFromCivil d + t)
              | some t, some o =>
                  if (parseTimeOfDay o).isSome then
                    some (86400000000 * daysFromCivil d + t)
                  else none
              | none, _ => none

/-- Embeds `seconds = int(diff.total_seconds())` for a difference of `now`
and the event time in microseconds: `total_seconds()` of the exact
microsecond difference over 10^6, truncated toward zero by `int()` (the float
round-trip is exact at these magnitudes). -/
def ageSeconds (now eventTime : Int) : Int :=
  Int.tdiv (now - eventTime) 1000000

/-- Embeds `ServarrCollector._calc_relative_time`.  `now` is the naive
current time in microseconds; the age in whole seconds is bucketed exactly as
the source's threshold chain. -/
def calcRelativeTime (dateStr : Option String) (now : Int) : String :=
  if !strTruthy dateStr then ""
  else
    match parseIsoNaive (dateStr.getD "") with
    | none => ""
    | some eventTime =>
        let seconds := ageSeconds now eventTime
        if seconds < 60 then "Just now"
        else if seconds < 3600 then toString (seconds / 60) ++ " min ago"
        else if seconds < 86400 then
          let hours := seconds / 3600
          toString hours ++ " hour" ++ (if hours ≠ 1 then "s" else "") ++ " ago"
        else
          let days := seconds / 86400
          toString days ++ " day" ++ (if days ≠ 1 then "s" else "") ++ " ago"

/-- One upstream history record, with the keys `fetch_recently_added` and
`_format_recently_added_item` read. -/
structure HistoryRecord where
  series : Option Series := none
  episode : Option Episode := none
  movie : Option Movie := none
  artist : Option Artist := none
  album : Option Album := none
  author : Option Author := none
  book : Option Book := none
  sourceTitle : Option String := none
  eventType : Option String := none
  date : Option String := none
deriving DecidableEq, Repr

/-- Body of a `/history` response: the `records` key. -/
structure HistoryResponse where
  records : List HistoryRecord := []
deriving DecidableEq, Repr

/-- The title composition branch of `_format_recently_added_item` (same chain
as the queue formatter, but falling back to `sourceTitle`). -/
def recentTitle (record : HistoryRecord) (appType : String) : String :=
  if appType = "sonarr" ∧ record.series.isSome then
    let series := record.series.getD {}
    let episode := record.episode.getD {}
    series.title.getD "Unknown" ++ " [S" ++ zfill2 (episode.seasonNumber.getD 0) ++
      "E" ++ zfill2 (episode.episodeNumber.getD 0) ++ "]"
  else if appType = "radarr" ∧ record.movie.isSome then
    let movie := record.movie.getD {}
    movie.title.getD "Unknown" ++ " (" ++
      (match movie.year with | some y => toString y | none => "") ++ ")"
  else if appType = "lidarr" ∧ record.artist.isSome then
    let artist := record.artist.getD {}
    let album := record.album.getD {}
    artist.artistName.getD "Unknown" ++ " - " ++ album.title.getD "Unknown Album"
  else if appType = "readarr" ∧ record.author.isSome then
    let author := record.author.getD {}
    let book := record.book.getD {}
    author.authorName.getD "Unknown" ++ " - " ++ book.title.getD "Unknown Book"
  else
    record.sourceTitle.getD "Unknown"

/-- One formatted recently-added item. -/
structure RecentItem where
  title : String
  time_ago : String
deriving DecidableEq, Repr

/-- Embeds `ServarrCollector._format_recently_added_item`. -/
def formatRecentlyAddedItem (record : HistoryRecord) (appType : String) (now : Int) :
    RecentItem :=
  { title := recentTitle record appType
    time_ago := calcRelativeTime record.date now }

/-- The history endpoint requested by `fetch_recently_added` (page size 50,
sorted by date descending). -/
def historyEndpoint (apiVersion appType : String) : String :=
  "/api/" ++ apiVersion ++ "/history?pageSize=50&sortKey=date&sortDirection=descending" ++
    includeParams appType

/-- The predicate of the import filter in `fetch_recently_added`. -/
def isImported (r : HistoryRecord) : Bool :=
  r.eventType == some "downloadFolderImported"

/-- Embeds `ServarrCollector.fetch_recently_added`: prowlarr short-circuits to
an empty section; otherwise fetch history (non-raising), keep only
`downloadFolderImported` records capped at 10, report their number as the
count, and format only the first 6. -/
def fetchRecentlyAdded (apiVersion appType : String) (now : Int)
    (o : Outcome (Option HistoryResponse)) : SectionData RecentItem :=
  if appType = "prowlarr" then ⟨0, []⟩
  else
    match nonRaising none (historyEndpoint apiVersion appType) o with
    | none => ⟨0, []⟩
    | some data =>
        if data.records.isEmpty then ⟨0, []⟩
        else
          let imported := (data.records.filter isImported).take 10
          ⟨imported.length, (imported.take 6).map fun r => formatRecentlyAddedItem r appType now⟩

/-- The unit ladder of `_format_bytes` (PB is the fallthrough unit). -/
def byteUnits : List String := ["B", "KB", "MB", "GB", "TB"]

/-- The loop of `_format_bytes`.  After `k` passes the Python variable `size`
holds `b / 1024^k` (float division, modelled exactly), so the loop guard
`abs(size) < 1024` is `b < 1024^(k+1)` for the non-negative byte count `b`.
Returns the exponent of the chosen unit and its name. -/
def chooseUnitAux (b : Nat) : Nat → List String → Nat × String
  | k, [] => (k, "PB")
  | k, u :: rest => if b < 1024 ^ (k + 1) then (k, u) else chooseUnitAux b (k + 1) rest

/-- Round-half-even of the exact rational `num / den` (`den > 0`): the
rounding of a one-decimal `format`/`printf` rendering. -/
def roundHalfEvenDiv (num den : Nat) : Nat :=
  let q := num / den
  let r := num % den
  if 2 * r < den then q else if den < 2 * r then q + 1 else if q % 2 = 0 then q else q + 1

/-- Embeds `f'{size:.1f}'` for the exact non-negative rational `b / pow`. -/
def renderScaled (b pow : Nat) : String :=
  let n := roundHalfEvenDiv (10 * b) pow
  toString (n / 10) ++ "." ++ toString (n % 10)

/-- Embeds `ServarrCollector._format_bytes` for a non-negative byte count:
zero renders `"--"`; otherwise scale down by 1024 through B..TB, falling
through to PB, and render with one decimal place. -/
def formatBytes (b : Nat) : String :=
  if b = 0 then "--"
  else
    let ku := chooseUnitAux b 0 byteUnits
    renderScaled b (1024 ^ ku.1) ++ " " ++ ku.2

/-- The name of the unit with exponent `k` in the ladder B..PB. -/
def unitName (k : Nat) : String :=
  (byteUnits ++ ["PB"]).getD k "PB"

end Servarr

namespace Servarr

/-- C7: in non-raising mode (used for all data fetches after detection) the
API request never raises: every failure outcome — connection failure,
timeout, HTTP 401/403, any other HTTP status, or any other request
exception — produces the empty result, and the corresponding payload section
degrades to an empty section (count 0, empty item list). -/
theorem api_request_nonraising_total :
    ∀ (α : Type) (emptyVal : α) (url apiVersion appType : String) (today : PyDateTime)
      (now : Int) (o : Outcome α) (oq : Outcome (Option QueueResponse))
      (oc : Outcome (List CalendarRecord)) (oh : Outcome (Option HistoryResponse)),
      (o.isFailure = true → apiRequest false emptyVal url o = .ok emptyVal) ∧
      (oq.isFailure = true → fetchQueue apiVersion appType oq = ⟨0, []⟩) ∧
      (oc.isFailure = true → fetchCalendar appType today oc = ⟨0, []⟩) ∧
      (oh.isFailure = true → fetchRecentlyAdded apiVersion appType now oh = ⟨0, []⟩) := by
  intro α emptyVal url apiVersion appType today now o oq oc oh
  refine ⟨?_, ?_, ?_, ?_⟩
  · intro h; cases o <;> simp_all [apiRequest, Outcome.isFailure]
  · intro h; cases oq <;> simp_all [apiRequest, Outcome.isFailure, fetchQueue, nonRaising]
  · intro h; cases oc <;> simp_all [apiRequest, Outcome.isFailure, fetchCalendar, nonRaising]
  · intro h; cases oh <;>
      simp_all [apiRequest, Outcome.isFailure, fetchRecentlyAdded, nonRaising]

/-- Witness for `api_request_nonraising_total` at concrete failure outcomes. -/
theorem api_request_nonraising_total_witness :
    (Outcome.timeout : Outcome (Option QueueResponse)).isFailure = true ∧
    apiRequest false (none : Option QueueResponse) "http://x" Outcome.timeout = .ok none ∧
    (Outcome.httpError 500 : Outcome (Option QueueResponse)).isFailure = true ∧
    fetchQueue "v3" "sonarr" (.httpError 500) = ⟨0, []⟩ :=
  ⟨by decide,
   (api_request_nonraising_total (Option QueueResponse) none "http://x" "v3" "sonarr"
      ⟨⟨2026, 1, 1⟩, 0⟩ 0 Outcome.timeout Outcome.timeout Outcome.timeout
      Outcome.timeout).1 (by decide),
   by decide,
   (api_request_nonraising_total (Option QueueResponse) none "http://x" "v3" "sonarr"
      ⟨⟨2026, 1, 1⟩, 0⟩ 0 Outcome.timeout (Outcome.httpError 500) Outcome.timeout
      Outcome.timeout).2.1 (by decide)⟩

/-- C2: the reported count equals the true upstream record count (queue: the
upstream totalRecords value; calendar: the full length of the returned list)
even though the items list is truncated to the first 10 records; in
particular a queue with 37 upstream records and a 20-record page reports
count 37 with 10 displayed items. -/
theorem counts_not_truncated :
    ∀ (apiVersion appType : String) (today : PyDateTime) (resp : QueueResponse) (n : Nat)
      (cal : List CalendarRecord),
      (resp.totalRecords = some n → (fetchQueue apiVersion appType (.ok (some resp))).count = n) ∧
      (fetchQueue apiVersion appType (.ok (some resp))).items.length =
        min 10 resp.records.length ∧
      (fetchCalendar appType today (.ok cal)).count = cal.length ∧
      (fetchCalendar appType today (.ok cal)).items.length = min 10 cal.length ∧
      (fetchQueue apiVersion appType
        (.ok (some ⟨some 37, List.replicate 20 {}⟩))).count = 37 ∧
      (fetchQueue apiVersion appType
        (.ok (some ⟨some 37, List.replicate 20 {}⟩))).items.length = 10 := by
  intro apiVersion appType today resp n cal
  refine ⟨?_, ?_, ?_, ?_, ?_, ?_⟩
  · intro h; simp [fetchQueue, nonRaising, apiRequest, h]
  · simp [fetchQueue, nonRaising, apiRequest]
  · by_cases h : cal.isEmpty <;>
      simp_all [fetchCalendar, nonRaising, apiRequest, List.isEmpty_iff]
  · by_cases h : cal.isEmpty <;>
      simp_all [fetchCalendar, nonRaising, apiRequest, List.isEmpty_iff]
  · simp [fetchQueue, nonRaising, apiRequest]
  · simp [fetchQueue, nonRaising, apiRequest]

/-- Witness for `counts_not_truncated` at a concrete 37-record response. -/
theorem counts_not_truncated_witness :
    (QueueResponse.totalRecords ⟨some 37, List.replicate 20 {}⟩ = some 37) ∧
    (fetchQueue "v3" "sonarr" (.ok (some ⟨some 37, List.replicate 20 {}⟩))).count = 37 :=
  ⟨by decide,
   (counts_not_truncated "v3" "sonarr" ⟨⟨2026, 1, 1⟩, 0⟩ ⟨some 37, List.replicate 20 {}⟩ 37
      []).1 (by decide)⟩

/-- C10: a non-empty queue response with no totalRecords field falls back to
the number of records present in the page for the reported count; with
totalRecords present its value is used unchanged. -/
theorem queue_count_fallback :
    ∀ (apiVersion appType : String) (resp : QueueResponse) (n : Nat),
      (resp.totalRecords = none →
        (fetchQueue apiVersion appType (.ok (some resp))).count = resp.records.length) ∧
      (resp.totalRecords = some n →
        (fetchQueue apiVersion appType (.ok (some resp))).count = n) := by
  intro apiVersion appType resp n
  constructor
  · intro h; simp [fetchQueue, nonRaising, apiRequest, h]
  · intro h; simp [fetchQueue, nonRaising, apiRequest, h]

/-- Witness for `queue_count_fallback`: a 3-record response without
totalRecords reports count 3. -/
theorem queue_count_fallback_witness :
    (QueueResponse.totalRecords ⟨none, List.replicate 3 {}⟩ = none) ∧
    (fetchQueue "v3" "sonarr" (.ok (some ⟨none, List.replicate 3 {}⟩))).count = 3 :=
  ⟨by decide,
   by simpa using
     (queue_count_fallback "v3" "sonarr" ⟨none, List.replicate 3 {}⟩ 0).1 (by decide)⟩

/-- C8: recently-added normalization keeps only records whose eventType is
"downloadFolderImported", reports a count equal to the number of matching
records capped at 10, and formats only the first 6 matching records. -/
theorem recently_added_filter_caps :
    ∀ (apiVersion appType : String) (now : Int) (data : HistoryResponse),
      appType ≠ "prowlarr" →
      (fetchRecentlyAdded apiVersion appType now (.ok (some data))).count =
        min 10 (data.records.filter isImported).length ∧
      (fetchRecentlyAdded apiVersion appType now (.ok (some data))).items =
        ((data.records.filter isImported).take 6).map
          (fun r => formatRecentlyAddedItem r appType now) ∧
      (fetchRecentlyAdded apiVersion appType now (.ok (some data))).items.length =
        min 6 (data.records.filter isImported).length := by
  intro apiVersion appType now data hne
  by_cases h : data.records.isEmpty
  · have hrec : data.records = [] := List.isEmpty_iff.mp h
    refine ⟨?_, ?_, ?_⟩ <;>
      simp [fetchRecentlyAdded, nonRaising, apiRequest, hne, hrec]
  · have h10 : ((data.records.filter isImported).take 10).take 6 =
        (data.records.filter isImported).take 6 := by
      rw [List.take_take]; norm_num
    refine ⟨?_, ?_, ?_⟩ <;>
      simp [fetchRecentlyAdded, nonRaising, apiRequest, hne, h, h10, Nat.min_assoc]

/-- Witness for `recently_added_filter_caps`: two imported and one other
record give count 2. -/
theorem recently_added_filter_caps_witness :
    ("sonarr" ≠ "prowlarr") ∧
    (fetchRecentlyAdded "v3" "sonarr" 0
      (.ok (some ⟨[{ eventType := some "downloadFolderImported" },
                   { eventType := some "grabbed" },
                   { eventType := some "downloadFolderImported" }]⟩))).count = 2 :=
  ⟨by decide,
   by
    have h := (recently_added_filter_caps "v3" "sonarr" 0
      ⟨[{ eventType := some "downloadFolderImported" },
        { eventType := some "grabbed" },
        { eventType := some "downloadFolderImported" }]⟩ (by decide)).1
    simpa using h⟩

/-- C9: for a prowlarr instance the queue, calendar and recently-added
sections each come back as count 0 with an empty item list, without raising:
recently-added short-circuits on the prowlarr kind, and queue/calendar hit
endpoints prowlarr does not serve, whose failures degrade to empty
sections. -/
theorem prowlarr_sections_empty :
    ∀ (apiVersion : String) (today : PyDateTime) (now : Int)
      (oq : Outcome (Option QueueResponse)) (oc : Outcome (List CalendarRecord))
      (oh : Outcome (Option HistoryResponse)),
      oq.isFailure = true → oc.isFailure = true →
      fetchRecentlyAdded apiVersion "prowlarr" now oh = ⟨0, []⟩ ∧
      fetchQueue apiVersion "prowlarr" oq = ⟨0, []⟩ ∧
      fetchCalendar "prowlarr" today oc = ⟨0, []⟩ := by
  intro apiVersion today now oq oc oh hq hc
  refine ⟨?_, ?_, ?_⟩
  · simp [fetchRecentlyAdded]
  · cases oq <;> simp_all [fetchQueue, nonRaising, apiRequest, Outcome.isFailure]
  · cases oc <;> simp_all [fetchCalendar, nonRaising, apiRequest, Outcome.isFailure]

/-- Witness for `prowlarr_sections_empty` at concrete HTTP 404 outcomes. -/
theorem prowlarr_sections_empty_witness :
    (Outcome.httpError 404 : Outcome (Option QueueResponse)).isFailure = true ∧
    fetchQueue "v1" "prowlarr" (.httpError 404) = ⟨0, []⟩ ∧
    fetchCalendar "prowlarr" ⟨⟨2026, 1, 1⟩, 0⟩ (.httpError 404) = ⟨0, []⟩ :=
  ⟨by decide,
   (prowlarr_sections_empty "v1" ⟨⟨2026, 1, 1⟩, 0⟩ 0 (.httpError 404) (.httpError 404)
      (.httpError 404) (by decide) (by decide)).2.1,
   (prowlarr_sections_empty "v1" ⟨⟨2026, 1, 1⟩, 0⟩ 0 (.httpError 404) (.httpError 404)
      (.httpError 404) (by decide) (by decide)).2.2⟩

end Servarr

namespace Servarr

/-- C1: app-type resolution with no forced kind probes the v3 system-status
endpoint first; on ConnectionError (including timeout) it retries at v1,
raising a combined ConnectionError if v1 also fails with one; on
AuthenticationError at v3 it retries at v1, raising AuthenticationError if v1
also fails (with either error); on any success it returns the status
response's appName lowercased as the kind, and the selected API version is v3
for sonarr/radarr and v1 for all other kinds.  In particular a v3 status
response with appName "Sonarr" yields kind sonarr with version v3, and
AuthenticationError at v3 followed by success at v1 (a v1-only app such as
Lidarr) yields version v1. -/
theorem detect_app_type_resolution :
    ∀ (url name : String) (stOther : Outcome SystemStatus),
      pyLower name ≠ "" →
      (detectAppType "" url (.ok { appName := some name }) stOther = .ok (pyLower name)) ∧
      (detectAppType "" url .connError .connError =
        .error (.connectionError
          ("Cannot connect to " ++ url ++ ": Check URL and ensure service is running"))) ∧
      (detectAppType "" url .timeout .timeout =
        .error (.connectionError
          ("Cannot connect to " ++ url ++ ": Check URL and ensure service is running"))) ∧
      (detectAppType "" url .connError (.ok { appName := some name }) = .ok (pyLower name)) ∧
      (detectAppType "" url (.httpError 401) (.httpError 403) =
        .error (.authenticationError ("Authentication failed for " ++ url ++ ": Check API key"))) ∧
      (detectAppType "" url (.httpError 403) .connError =
        .error (.authenticationError ("Authentication failed for " ++ url ++ ": Check API key"))) ∧
      (detectAppType "" url (.httpError 401) (.ok { appName := some name }) = .ok (pyLower name)) ∧
      (getApiVersion "sonarr" = "v3" ∧ getApiVersion "radarr" = "v3") ∧
      (∀ k, k ≠ "sonarr" → k ≠ "radarr" → getApiVersion k = "v1") ∧
      (detectAppType "" url (.ok { appName := some "Sonarr" }) stOther = .ok "sonarr" ∧
        getApiVersion "sonarr" = "v3") ∧
      (detectAppType "" url (.httpError 401) (.ok { appName := some "Lidarr" }) = .ok "lidarr" ∧
        getApiVersion "lidarr" = "v1") := by
  intro url name stOther h
  refine ⟨?_, rfl, rfl, ?_, rfl, rfl, ?_, ⟨rfl, rfl⟩, ?_, ⟨rfl, rfl⟩, ⟨rfl, rfl⟩⟩
  · simp [detectAppType, apiRequest, h]
  · simp [detectAppType, apiRequest, h]
  · simp [detectAppType, apiRequest, h]
  · intro k h1 h2; simp [getApiVersion, h1, h2]

/-- Witness for `detect_app_type_resolution` at appName "Sonarr". -/
theorem detect_app_type_resolution_witness :
    pyLower "Sonarr" ≠ "" ∧
    detectAppType "" "http://x" (.ok { appName := some "Sonarr" }) .connError =
      .ok (pyLower "Sonarr") :=
  ⟨by decide,
   (detect_app_type_resolution "http://x" "Sonarr" .connError (by decide)).1⟩

end Servarr

namespace Servarr

/-- C4: for every calendar record whose selected date field parses as
YYYY-MM-DD, days_until is the whole-day difference of the date portions of
the item date and today, independent of either time-of-day (the item date is
cut at 'T' and today enters only through its date); a missing or unparsable
date field yields days_until 0.  Concretely, with today 2026-10-12 at any
time of day, an item dated 2026-10-12 yields 0, 2026-10-13 yields 1 and
2026-10-11 yields -1. -/
theorem days_until_date_portion :
    ∀ (record : CalendarRecord) (appType : String) (d0 : CivilDate) (t t2 : Nat)
      (dte : CivilDate) (s : String),
      (formatCalendarItem record appType ⟨d0, t⟩ = formatCalendarItem record appType ⟨d0, t2⟩) ∧
      (calendarSelectedDate record appType = some s → s ≠ "" →
        parseYMD ((splitOnChar 'T' s).headD "") = some dte →
        (formatCalendarItem record appType ⟨d0, t⟩).days_until =
          daysFromCivil dte - daysFromCivil d0) ∧
      (strTruthy (calendarSelectedDate record appType) = false →
        (formatCalendarItem record appType ⟨d0, t⟩).days_until = 0) ∧
      (calendarSelectedDate record appType = some s →
        parseYMD ((splitOnChar 'T' s).headD "") = none →
        (formatCalendarItem record appType ⟨d0, t⟩).days_until = 0) ∧
      ((formatCalendarItem { digitalRelease := some "2026-10-12T20:15:00Z" } "radarr"
          ⟨⟨2026, 10, 12⟩, 0⟩).days_until = 0) ∧
      ((formatCalendarItem { digitalRelease := some "2026-10-13T01:30:00Z" } "radarr"
          ⟨⟨2026, 10, 12⟩, 0⟩).days_until = 1) ∧
      ((formatCalendarItem { digitalRelease := some "2026-10-11T23:59:59Z" } "radarr"
          ⟨⟨2026, 10, 12⟩, 0⟩).days_until = -1) := by
  intro record appType d0 t t2 dte s
  refine ⟨rfl, ?_, ?_, ?_, by decide, by decide, by decide⟩
  · intro hsel hs hp
    have hp2 : parseYMD ((splitOnChar 'T' s).head?.getD "") = some dte := by
      simpa using hp
    simp [formatCalendarItem, hsel, strTruthy, hs, hp2]
  · intro hfalsy
    simp [formatCalendarItem, hfalsy]
  · intro hsel hp
    by_cases hs : s = ""
    · subst hs; simp [formatCalendarItem, hsel, strTruthy]
    · have hp2 : parseYMD ((splitOnChar 'T' s).head?.getD "") = none := by
        simpa using hp
      simp [formatCalendarItem, hsel, strTruthy, hs, hp2]

/-- Witness for `days_until_date_portion`: a radarr record released tomorrow
(2026-10-13) relative to today 2026-10-12. -/
theorem days_until_date_portion_witness :
    calendarSelectedDate { digitalRelease := some "2026-10-13T01:30:00Z" } "radarr" =
      some "2026-10-13T01:30:00Z" ∧
    parseYMD ((splitOnChar 'T' "2026-10-13T01:30:00Z").headD "") = some ⟨2026, 10, 13⟩ ∧
    (formatCalendarItem { digitalRelease := some "2026-10-13T01:30:00Z" } "radarr"
      ⟨⟨2026, 10, 12⟩, 43200⟩).days_until =
        daysFromCivil ⟨2026, 10, 13⟩ - daysFromCivil ⟨2026, 10, 12⟩ :=
  ⟨by decide, by decide,
   (days_until_date_portion { digitalRelease := some "2026-10-13T01:30:00Z" } "radarr"
      ⟨2026, 10, 12⟩ 43200 0 ⟨2026, 10, 13⟩ "2026-10-13T01:30:00Z").2.1
     (by decide) (by decide) (by decide)⟩

end Servarr

namespace Servarr

/-- C6 counterexample: the claim requires the scaled magnitude in the chosen
unit to be strictly below 1024 (never exceeding 1023.9) for every byte count,
but the unit ladder stops at PB: at b = 1024^6 bytes the chosen unit is PB
with scaled magnitude exactly 1024, rendered "1024.0 PB". -/
theorem format_bytes_counterexample :
    formatBytes (1024 ^ 6) = "1024.0 PB" ∧
    chooseUnitAux (1024 ^ 6) 0 byteUnits = (5, "PB") ∧
    ¬ (((1024 ^ 6 : Nat) : ℚ) / 1024 ^ 5 < 1024) ∧
    ¬ (((1024 ^ 6 : Nat) : ℚ) / 1024 ^ 5 ≤ 1023.9) := by
  refine ⟨by decide, by decide, ?_, ?_⟩
  · push_cast
    norm_num
  · push_cast
    norm_num

/-- C6 (amended): formatBytes 0 = "--"; and for every byte count b with
0 < b < 1024^6, the formatter picks the unique unit exponent k (the first
unit whose scaled magnitude is below 1024), renders b / 1024^k with one
decimal place, and that scaled magnitude lies in [1, 1024); for b ≥ 1024^6
the PB fallthrough makes the magnitude reach 1024 or more
(`format_bytes_counterexample`). -/
theorem format_bytes_unit_ladder :
    ∀ (b k : Nat),
      formatBytes 0 = "--" ∧
      (0 < b → k ≤ 5 → 1024 ^ k ≤ b → b < 1024 ^ (k + 1) →
        chooseUnitAux b 0 byteUnits = (k, unitName k) ∧
        formatBytes b = renderScaled b (1024 ^ k) ++ " " ++ unitName k ∧
        1 ≤ ((b : ℚ) / 1024 ^ k) ∧ ((b : ℚ) / 1024 ^ k) < 1024) := by
  intro b k
  refine ⟨rfl, ?_⟩
  intro hb hk hlo hhi
  have hq1 : (1 : ℚ) ≤ (b : ℚ) / 1024 ^ k := by
    rw [le_div_iff₀ (by positivity), one_mul]
    exact_mod_cast hlo
  have hq2 : ((b : ℚ) / 1024 ^ k) < 1024 := by
    rw [div_lt_iff₀ (by positivity)]
    calc ((b : ℚ)) < ((1024 ^ (k + 1) : Nat) : ℚ) := by exact_mod_cast hhi
      _ = 1024 * 1024 ^ k := by push_cast [pow_succ]; ring
  have hcu : chooseUnitAux b 0 byteUnits = (k, unitName k) := by
    interval_cases k
    · simp only [byteUnits, chooseUnitAux]
      norm_num at hhi
      rw [if_pos (by omega)]
      rfl
    · simp only [byteUnits, chooseUnitAux]
      norm_num at hlo hhi
      rw [if_neg (by omega), if_pos (by omega)]
      rfl
    · simp only [byteUnits, chooseUnitAux]
      norm_num at hlo hhi
      rw [if_neg (by omega), if_neg (by omega), if_pos (by omega)]
      rfl
    · simp only [byteUnits, chooseUnitAux]
      norm_num at hlo hhi
      rw [if_neg (by omega), if_neg (by omega), if_neg (by omega), if_pos (by omega)]
      rfl
    · simp only [byteUnits, chooseUnitAux]
      norm_num at hlo hhi
      rw [if_neg (by omega), if_neg (by omega), if_neg (by omega), if_neg (by omega),
        if_pos (by omega)]
      rfl
    · simp only [byteUnits, chooseUnitAux]
      norm_num at hlo hhi
      rw [if_neg (by omega), if_neg (by omega), if_neg (by omega), if_neg (by omega),
        if_neg (by omega)]
      rfl
  refine ⟨hcu, ?_, hq1, hq2⟩
  have hbne : b ≠ 0 := Nat.pos_iff_ne_zero.mp hb
  simp [formatBytes, hcu, hbne]

/-- Witness for `format_bytes_unit_ladder` at b = 2048 (unit KB). -/
theorem format_bytes_unit_ladder_witness :
    ((0 : Nat) < 2048 ∧ 1 ≤ 5 ∧ 1024 ^ 1 ≤ 2048 ∧ 2048 < 1024 ^ 2) ∧
    formatBytes 2048 = renderScaled 2048 (1024 ^ 1) ++ " " ++ unitName 1 ∧
    formatBytes 2048 = "2.0 KB" :=
  ⟨by decide,
   ((format_bytes_unit_ladder 2048 1).2 (by decide) (by decide) (by decide)
      (by decide)).2.1,
   by decide⟩

end Servarr
